import Mathlib

/-!
Verification development for the `ploteria` plotting library: a shallow
embedding, in Lean, of the configuration-to-script-and-binary compilation
pipeline (`src/lib.rs`, `src/axis/mod.rs`, `src/map.rs`, `src/curve.rs`,
`src/filledcurve.rs`, `src/errorbar.rs`, `src/candlestick.rs`,
`src/key.rs`, `src/grid.rs`, `src/axis/grid.rs`), together with theorems
settling the frozen specification claims.

Modelling conventions:
- Rust `f64` values are modelled as `ℚ` (exact arithmetic; the spec's
  per-cell guarantee `toFloat(input) * factor` is exact multiplication).
- Rust `String` is Lean `String`; `format!` calls become concatenations
  through the explicit formatter `fmtQ` for numbers.
- Mutation through `&mut self` or by-value builders becomes explicit
  state passing: each Rust setter is a Lean function returning the new
  record value. Rust setters share their field's name; the Lean methods
  are prefixed with `set` when the name would collide with the field.
- A Rust `assert!` is modelled by returning `Option` (`none` = panic).
- `src/data.rs` (the `Matrix` type) and `src/display.rs` (enum-to-string
  tables, `Default for LineType`) are not present in the source tree;
  those definitions are modelled from the spec and say so in their doc
  comments.
-/

/-- A coordinate axis (src/axis/mod.rs `enum Axis`); the discriminants
BottomX = 0, LeftY = 1, RightY = 2, TopX = 3 index the fixed-size map. -/
inductive Axis where
  | BottomX
  | LeftY
  | RightY
  | TopX
deriving DecidableEq, Repr

/-- `Axis as usize`: the enum discriminant used to index `map::axis::Map`. -/
def Axis.idx : Axis → Nat
  | .BottomX => 0
  | .LeftY => 1
  | .RightY => 2
  | .TopX => 3

/-- src/axis/mod.rs `Axis::next`: the canonical successor
BottomX → LeftY → RightY → TopX → none. -/
def Axis.next : Axis → Option Axis
  | .BottomX => some .LeftY
  | .LeftY => some .RightY
  | .RightY => some .TopX
  | .TopX => none

/-- src/axis/mod.rs `impl From<Axis> for &'static str`. -/
def Axis.str : Axis → String
  | .BottomX => "x"
  | .LeftY => "y"
  | .RightY => "y2"
  | .TopX => "x2"

/-- A pair of axes defining a coordinate system (src/axis/mod.rs `enum Axes`). -/
inductive Axes where
  | BottomXLeftY
  | BottomXRightY
  | TopXLeftY
  | TopXRightY
deriving DecidableEq, Repr

/-- src/axis/mod.rs `impl From<Axes> for &'static str`. -/
def Axes.str : Axes → String
  | .BottomXLeftY => "x1y1"
  | .BottomXRightY => "x1y2"
  | .TopXLeftY => "x2y1"
  | .TopXRightY => "x2y2"

/-- src/map.rs `Map<T>`: a fixed-size associative container over the four
axis keys, one optional slot per discriminant (`[Option<T>; 4]`). -/
structure Map (T : Type) where
  s0 : Option T
  s1 : Option T
  s2 : Option T
  s3 : Option T
deriving DecidableEq, Repr

namespace Map

/-- src/map.rs `Map::new`: all four slots empty. -/
def new {T : Type} : Map T := ⟨none, none, none, none⟩

/-- src/map.rs `Map::get`: `self.0[key as usize].as_ref()`. -/
def get {T : Type} (m : Map T) (key : Axis) : Option T :=
  match key with
  | .BottomX => m.s0
  | .LeftY => m.s1
  | .RightY => m.s2
  | .TopX => m.s3

/-- src/map.rs `Map::contains_key`. -/
def contains_key {T : Type} (m : Map T) (key : Axis) : Bool :=
  (m.get key).isSome

/-- src/map.rs `Map::insert` (upsert; the returned previous value is
irrelevant to the claims, so only the updated map is modelled). -/
def insert {T : Type} (m : Map T) (key : Axis) (value : T) : Map T :=
  match key with
  | .BottomX => { m with s0 := some value }
  | .LeftY => { m with s1 := some value }
  | .RightY => { m with s2 := some value }
  | .TopX => { m with s3 := some value }

/-- The loop variant of the iterator state: `none` is exhausted. -/
def stateMeasure : Option Axis → Nat
  | none => 0
  | some k => 4 - k.idx

/-- src/map.rs `Items::next`, run to completion: the while loop advances
`state` to `key.next()` and yields `(key, value)` for populated slots. -/
def itemsFrom {T : Type} (m : Map T) (st : Option Axis) : List (Axis × T) :=
  match st with
  | none => []
  | some k =>
    match m.get k with
    | some v => (k, v) :: m.itemsFrom k.next
    | none => m.itemsFrom k.next
termination_by stateMeasure st
decreasing_by
  all_goals cases k <;> simp [Axis.next, stateMeasure, Axis.idx]

/-- src/map.rs `Map::iter`: iteration starts at `BottomX`. -/
def iter {T : Type} (m : Map T) : List (Axis × T) :=
  m.itemsFrom (some .BottomX)

/-- A sequence of inserts applied in order to the empty map. -/
def ofInserts {T : Type} (ops : List (Axis × T)) : Map T :=
  ops.foldl (fun m kv => m.insert kv.1 kv.2) Map.new

end Map

/-- The canonical key order of the axis registry. -/
def canonicalAxes : List Axis := [.BottomX, .LeftY, .RightY, .TopX]

/-- C8: for every axis-registry state (hence every state reachable by any
sequence of inserts, in any order), iteration yields exactly the populated
(key, value) entries in the fixed canonical order BottomX, LeftY, RightY,
TopX, skipping unpopulated keys. -/
theorem c8_iter_canonical_order {T : Type} (m : Map T) :
    m.iter = canonicalAxes.filterMap (fun k => (m.get k).map (fun v => (k, v))) := by
  rcases m with ⟨s0, s1, s2, s3⟩
  rcases s0 <;> rcases s1 <;> rcases s2 <;> rcases s3 <;>
    simp [Map.iter, Map.itemsFrom, Map.get, Axis.next, canonicalAxes]

/-- Formatter for numeric values appearing in script text. The Rust code
prints `f64` with `Display`; the exact digit sequence is immaterial to the
claims, so the model prints the rational exactly. -/
def fmtQ (q : ℚ) : String :=
  if q.den = 1 then toString q.num else toString q.num ++ "/" ++ toString q.den

/-- src/axis/grid.rs `Gridline`: per-axis gridline sub-record. -/
structure Gridline where
  is_minor : Bool
  hidden : Bool
deriving DecidableEq, Repr

namespace Gridline

/-- src/axis/grid.rs `Gridline::new`: hidden by default. -/
def new (is_minor : Bool) : Gridline := ⟨is_minor, true⟩

/-- src/axis/grid.rs `Gridline::hide`. -/
def hide (g : Gridline) : Gridline := { g with hidden := true }

/-- src/axis/grid.rs `Gridline::show` (`show` is a Lean keyword, hence the prime). -/
def show' (g : Gridline) : Gridline := { g with hidden := false }

/-- src/axis/grid.rs `impl Script for (Axis, &Gridline)`. -/
def script (axis : Axis) (g : Gridline) : String :=
  let grid := if g.is_minor then "m" else ""
  if g.hidden then "" else "set grid " ++ grid ++ axis.str ++ "tics\n"

end Gridline

/-- src/axis/mod.rs `AxisProperties`: the per-axis property record. -/
structure AxisProperties where
  major_grid : Gridline
  minor_grid : Gridline
  hidden : Bool
  label : Option String
  logarithmic : Bool
  range : Option (ℚ × ℚ)
  scale_factor : ℚ
  tics : Option String
deriving DecidableEq, Repr

/-- src/axis/mod.rs `enum Range`. -/
inductive Range where
  | Auto
  | Limits (low high : ℚ)
deriving DecidableEq, Repr

/-- src/axis/mod.rs `enum Scale`. -/
inductive Scale where
  | Linear
  | Logarithmic
deriving DecidableEq, Repr

namespace AxisProperties

/-- src/axis/mod.rs `impl Default for AxisProperties`: note `hidden: false`
whatever axis the record will be inserted for. -/
def default : AxisProperties where
  major_grid := Gridline.new false
  minor_grid := Gridline.new true
  hidden := false
  label := none
  logarithmic := false
  range := none
  scale_factor := 1
  tics := none

/-- src/axis/mod.rs `AxisProperties::hide`. -/
def hide (p : AxisProperties) : AxisProperties := { p with hidden := true }

/-- src/axis/mod.rs `AxisProperties::show` (`show` is a Lean keyword, hence the prime). -/
def show' (p : AxisProperties) : AxisProperties := { p with hidden := false }

/-- src/axis/mod.rs `AxisProperties::label` (named `setLabel`: the Rust
setter shares the field's name). -/
def setLabel (p : AxisProperties) (label : String) : AxisProperties :=
  { p with label := some label }

/-- src/axis/mod.rs `AxisProperties::range` (named `setRange`: the Rust
setter shares the field's name). It sets `hidden = false` first. -/
def setRange (p : AxisProperties) (range : Range) : AxisProperties :=
  let p := { p with hidden := false }
  match range with
  | .Auto => { p with range := none }
  | .Limits low high => { p with range := some (low, high) }

/-- src/axis/mod.rs `AxisProperties::scale`. It sets `hidden = false` first. -/
def scale (p : AxisProperties) (s : Scale) : AxisProperties :=
  let p := { p with hidden := false }
  match s with
  | .Linear => { p with logarithmic := false }
  | .Logarithmic => { p with logarithmic := true }

/-- src/axis/mod.rs `AxisProperties::scale_factor` (named `setScaleFactor`:
the Rust setter shares the field's name). -/
def setScaleFactor (p : AxisProperties) (factor : ℚ) : AxisProperties :=
  { p with scale_factor := factor }

/-- src/axis/mod.rs `AxisProperties::tick_labels`: zips positions with
labels (truncating to the shorter), renders each pair, stores the joined
string — and leaves `hidden` untouched. -/
def tick_labels (p : AxisProperties) (positions : List ℚ) (labels : List String) :
    AxisProperties :=
  let pairs := (positions.zip labels).map
    (fun pl => "'" ++ pl.2 ++ "' " ++ fmtQ pl.1)
  if pairs.isEmpty then
    { p with tics := none }
  else
    { p with tics := some (String.intercalate ", " pairs) }

/-- src/axis/mod.rs `impl Script for (Axis, &AxisProperties)`: the early
return renders `unset <axis>tics\n` for a hidden record; otherwise the
parts are pushed in source order. -/
def script (axis : Axis) (p : AxisProperties) : String :=
  if p.hidden then
    "unset " ++ axis.str ++ "tics\n"
  else
    "set " ++ axis.str ++ "tics nomirror "
    ++ (match p.tics with
        | some tics => "(" ++ tics ++ ")"
        | none => "")
    ++ "\n"
    ++ (match p.label with
        | some label => "set " ++ axis.str ++ "label '" ++ label ++ "'\n"
        | none => "")
    ++ (match p.range with
        | some lh => "set " ++ axis.str ++ "range [" ++ fmtQ lh.1 ++ ":" ++ fmtQ lh.2 ++ "]\n"
        | none => "")
    ++ (if p.logarithmic then "set logscale " ++ axis.str ++ "\n" else "")
    ++ Gridline.script axis p.major_grid
    ++ Gridline.script axis p.minor_grid

end AxisProperties

namespace data

/-- Modelled from the spec: src/data.rs (the `Matrix` type) is not in the
source tree. Per §3/§4.2 a Matrix owns the row count, the column count and
a flat row-major buffer of `rows * cols` doubles, each column pre-scaled
once at construction. Buffer entries here are the model of 8-byte
little-endian IEEE-754 blocks. -/
structure Matrix where
  nrows : Nat
  ncols : Nat
  buf : List ℚ
deriving DecidableEq, Repr

namespace Matrix

/-- The length of the zipped row iterator: `izip!` truncates to the
shortest input sequence (spec §9: the original zips the sequences). -/
def minRows : List (List ℚ) → Nat
  | [] => 0
  | [c] => c.length
  | c :: cs => min c.length (minRows cs)

/-- One row of the buffer: cell (r, c) = `toFloat(sequence_c[r]) * factor_c`
(spec §4.2). -/
def rowAt (cols : List (List ℚ)) (factors : List ℚ) (r : Nat) : List ℚ :=
  (cols.zip factors).map (fun cf => cf.1.getD r 0 * cf.2)

/-- Modelled from the spec: `Matrix::new` (src/data.rs, absent). Given the
K coordinate sequences (as equally many columns) and the K per-column
scale factors, builds the N×K row-major buffer, N the zipped length. -/
def new (cols : List (List ℚ)) (factors : List ℚ) : Matrix where
  nrows := minRows cols
  ncols := cols.length
  buf := ((List.range (minRows cols)).map (rowAt cols factors)).flatten

/-- Modelled from the spec: `Matrix::bytes` exposes the buffer as raw
bytes; each rational here stands for the 8-byte little-endian IEEE-754
block of the corresponding float, in buffer order. -/
def bytes (m : Matrix) : List ℚ := m.buf

/-- Modelled from the spec: the byte length of the binary payload, 8 bytes
per stored float. -/
def byteLength (m : Matrix) : Nat := 8 * m.buf.length

end Matrix

end data

/-- Flattening a list of rows of constant width K indexes row-major:
entry `r * K + c` of the flat list is entry `c` of row `r`. -/
theorem flatten_getD_const_width {α : Type} (L : List (List α)) (K : Nat) (d : α) :
    ∀ r c, (∀ row ∈ L, row.length = K) → r < L.length → c < K →
      L.flatten.getD (r * K + c) d = (L.getD r []).getD c d := by
  induction L with
  | nil => intro r c _ hr _; exact absurd hr (Nat.not_lt_zero r)
  | cons row rest ih =>
    intro r c hw hr hc
    have hrow : row.length = K := hw row (List.mem_cons_self row rest)
    cases r with
    | zero =>
      simp only [List.flatten_cons, Nat.zero_mul, Nat.zero_add, List.getD_cons_zero]
      exact List.getD_append row rest.flatten d c (hrow ▸ hc)
    | succ r' =>
      have hidx : row.length ≤ (r' + 1) * K + c := by
        rw [hrow]; calc K ≤ (r' + 1) * K := Nat.le_mul_of_pos_left K (Nat.succ_pos r')
          _ ≤ (r' + 1) * K + c := Nat.le_add_right _ _
      rw [List.flatten_cons, List.getD_append_right row rest.flatten d _ hidx,
        List.getD_cons_succ]
      have harith : (r' + 1) * K + c - row.length = r' * K + c := by
        rw [hrow, Nat.succ_mul]; omega
      rw [harith]
      exact ih r' c (fun rw hrw => hw rw (List.mem_cons_of_mem row hrw))
        (Nat.lt_of_succ_lt_succ hr) hc

/-- When every column has length N and there is at least one column, the
zipped row count is N. -/
theorem data.Matrix.minRows_eq (N : Nat) :
    ∀ (cols : List (List ℚ)), cols ≠ [] → (∀ c ∈ cols, c.length = N) →
      data.Matrix.minRows cols = N := by
  intro cols
  induction cols with
  | nil => intro h; exact absurd rfl h
  | cons c cs ih =>
    intro _ hlen
    have hc : c.length = N := hlen c (List.mem_cons_self c cs)
    cases cs with
    | nil => simpa [data.Matrix.minRows] using hc
    | cons c2 cs2 =>
      have hrest : data.Matrix.minRows (c2 :: cs2) = N :=
        ih (by simp) (fun x hx => hlen x (List.mem_cons_of_mem c hx))
      simp [data.Matrix.minRows, hc, hrest]

/-- C6: for positive N, K and arbitrary per-column factors, a Matrix built
from K length-N sequences has byte length N*K*8, and the decoded byte view
(consecutive little-endian float64 blocks, row-major, no header or
separators) recovers `toFloat(input) * factor` in every cell. -/
theorem c6_matrix_byte_layout (cols : List (List ℚ)) (factors : List ℚ) (N K : Nat)
    (hN : 0 < N) (hK : 0 < K) (hcols : cols.length = K) (hf : factors.length = K)
    (hlen : ∀ c ∈ cols, c.length = N) :
    (data.Matrix.new cols factors).byteLength = N * K * 8 ∧
    (data.Matrix.new cols factors).nrows = N ∧
    (data.Matrix.new cols factors).ncols = K ∧
    ∀ r c, r < N → c < K →
      (data.Matrix.new cols factors).bytes.getD (r * K + c) 0
        = (cols.getD c []).getD r 0 * factors.getD c 0 := by
  have hne : cols ≠ [] := by
    intro h; rw [h] at hcols; simp at hcols; omega
  have hmin : data.Matrix.minRows cols = N := data.Matrix.minRows_eq N cols hne hlen
  have hwidth : ∀ row ∈ (List.range (data.Matrix.minRows cols)).map
      (data.Matrix.rowAt cols factors), row.length = K := by
    intro row hrow
    rcases List.mem_map.mp hrow with ⟨r, _, hr⟩
    rw [← hr]
    simp [data.Matrix.rowAt, List.length_zip, hcols, hf]
  refine ⟨?_, by simp [data.Matrix.new, hmin], by simp [data.Matrix.new, hcols], ?_⟩
  · show 8 * ((List.range (data.Matrix.minRows cols)).map (data.Matrix.rowAt cols factors)).flatten.length
      = N * K * 8
    rw [List.length_flatten]
    have : ((List.range (data.Matrix.minRows cols)).map (data.Matrix.rowAt cols factors)).map
        List.length = List.replicate N K := by
      rw [List.map_map]
      refine List.eq_replicate_iff.mpr ⟨by simp [hmin], ?_⟩
      intro b hb
      rcases List.mem_map.mp hb with ⟨r, _, hr⟩
      rw [← hr]
      simp [data.Matrix.rowAt, List.length_zip, hcols, hf]
    rw [this, List.sum_replicate, smul_eq_mul]
    ring
  · intro r c hr hc
    show (((List.range (data.Matrix.minRows cols)).map (data.Matrix.rowAt cols factors)).flatten).getD
      (r * K + c) 0 = (cols.getD c []).getD r 0 * factors.getD c 0
    rw [flatten_getD_const_width _ K 0 r c hwidth (by simp [hmin, hr]) hc]
    have hrlt : r < ((List.range (data.Matrix.minRows cols)).map
        (data.Matrix.rowAt cols factors)).length := by simp [hmin, hr]
    rw [List.getD_eq_getElem _ _ hrlt]
    simp only [List.getElem_map, List.getElem_range]
    have hczip : c < (cols.zip factors).length := by
      simp [List.length_zip, hcols, hf, hc]
    rw [data.Matrix.rowAt, List.getD_eq_getElem _ _ (by simpa using hczip)]
    simp only [List.getElem_map]
    rw [List.getElem_zip]
    rw [List.getD_eq_getElem cols _ (by omega : c < cols.length),
      List.getD_eq_getElem factors _ (by omega : c < factors.length)]

/-- C6 witness: two columns of three samples with factors 1 and 2. -/
theorem c6_matrix_byte_layout_witness :
    (data.Matrix.new [[1, 2, 3], [4, 5, 6]] [1, 2]).byteLength = 3 * 2 * 8 ∧
    (data.Matrix.new [[1, 2, 3], [4, 5, 6]] [1, 2]).nrows = 3 ∧
    (data.Matrix.new [[1, 2, 3], [4, 5, 6]] [1, 2]).ncols = 2 ∧
    ∀ r c, r < 3 → c < 2 →
      (data.Matrix.new [[1, 2, 3], [4, 5, 6]] [1, 2]).bytes.getD (r * 2 + c) 0
        = (([[1, 2, 3], [4, 5, 6]] : List (List ℚ)).getD c []).getD r 0
          * ([1, 2] : List ℚ).getD c 0 :=
  c6_matrix_byte_layout [[1, 2, 3], [4, 5, 6]] [1, 2] 3 2 (by decide) (by decide)
    (by decide) (by decide) (by decide)

/-- src/lib.rs `enum Color`. -/
inductive Color where
  | Black
  | Blue
  | Cyan
  | DarkViolet
  | ForestGreen
  | Gold
  | Gray
  | Green
  | Magenta
  | Red
  | Rgb (r g b : Nat)
  | White
  | Yellow
deriving DecidableEq, Repr

/-- Two lowercase hex digits of a byte value. -/
def hex2 (n : Nat) : String :=
  let digit := fun (d : Nat) => String.singleton (Char.ofNat (if d < 10 then 48 + d else 87 + d))
  digit (n / 16 % 16) ++ digit (n % 16)

/-- Modelled from the spec: the `Color` to gnuplot-string table lives in
src/display.rs, which is not in the source tree; named colors render as
their lowercase names and `Rgb` as a hex triplet. The claims do not depend
on the exact strings. -/
def Color.str : Color → String
  | .Black => "black"
  | .Blue => "blue"
  | .Cyan => "cyan"
  | .DarkViolet => "dark-violet"
  | .ForestGreen => "forest-green"
  | .Gold => "gold"
  | .Gray => "gray"
  | .Green => "green"
  | .Magenta => "magenta"
  | .Red => "red"
  | .Rgb r g b => "#" ++ hex2 r ++ hex2 g ++ hex2 b
  | .White => "white"
  | .Yellow => "yellow"

/-- src/lib.rs `enum LineType`. -/
inductive LineType where
  | Dash
  | Dot
  | DotDash
  | DotDotDash
  | SmallDot
  | Solid
deriving DecidableEq, Repr

/-- Modelled from the spec: the `LineType` to gnuplot-code table lives in
src/display.rs, absent from the source tree. The claims do not depend on
the exact strings. -/
def LineType.str : LineType → String
  | .Dash => "2"
  | .Dot => "3"
  | .DotDash => "4"
  | .DotDotDash => "5"
  | .SmallDot => "0"
  | .Solid => "1"

/-- src/lib.rs `enum PointType`. -/
inductive PointType where
  | Circle
  | FilledCircle
  | FilledSquare
  | FilledTriangle
  | Plus
  | Square
  | Star
  | Triangle
  | X
deriving DecidableEq, Repr

/-- Modelled from the spec: the `PointType` to gnuplot-code table lives in
src/display.rs, absent from the source tree. The claims do not depend on
the exact strings. -/
def PointType.str : PointType → String
  | .Circle => "6"
  | .FilledCircle => "7"
  | .FilledSquare => "5"
  | .FilledTriangle => "9"
  | .Plus => "1"
  | .Square => "4"
  | .Star => "3"
  | .Triangle => "8"
  | .X => "2"

/-- src/lib.rs `enum Terminal`. -/
inductive Terminal where
  | Svg
deriving DecidableEq, Repr

/-- Modelled from the spec: `Terminal`'s display table lives in
src/display.rs, absent from the source tree; the spec's terminal directive
names the terminal kind, `svg` for the only variant. -/
def Terminal.str : Terminal → String
  | .Svg => "svg"

/-- src/lib.rs `struct Plot`: one registered series, owning its Matrix and
its immutable rendered style fragment (`Plot::new` stores
`script.script()`). -/
structure Plot where
  data : data.Matrix
  script : String
deriving DecidableEq, Repr

namespace key

/-- src/key.rs `enum Boxed`. -/
inductive Boxed where
  | No
  | Yes
deriving DecidableEq, Repr

/-- src/key.rs `impl Into<bool> for Boxed`. -/
def Boxed.toBool : Boxed → Bool
  | .Yes => true
  | .No => false

/-- src/key.rs `enum Horizontal`. -/
inductive Horizontal where
  | Center
  | Left
  | Right
deriving DecidableEq, Repr

/-- src/key.rs `impl From<Horizontal> for &'static str`. -/
def Horizontal.str : Horizontal → String
  | .Center => "center"
  | .Left => "left"
  | .Right => "right"

/-- src/key.rs `enum Justification`. -/
inductive Justification where
  | Left
  | Right
deriving DecidableEq, Repr

/-- src/key.rs `impl From<Justification> for &'static str`. -/
def Justification.str : Justification → String
  | .Left => "Left"
  | .Right => "Right"

/-- src/key.rs `enum Order`. -/
inductive Order where
  | SampleText
  | TextSample
deriving DecidableEq, Repr

/-- src/key.rs `impl From<Order> for &'static str`. -/
def Order.str : Order → String
  | .TextSample => "noreverse"
  | .SampleText => "reverse"

/-- src/key.rs `enum Vertical`. -/
inductive Vertical where
  | Bottom
  | Center
  | Top
deriving DecidableEq, Repr

/-- src/key.rs `impl From<Vertical> for &'static str`. -/
def Vertical.str : Vertical → String
  | .Bottom => "bottom"
  | .Center => "center"
  | .Top => "top"

/-- src/key.rs `enum Position`. -/
inductive Position where
  | Inside (v : Vertical) (h : Horizontal)
  | Outside (v : Vertical) (h : Horizontal)
deriving DecidableEq, Repr

/-- src/key.rs `enum Stacked`. -/
inductive Stacked where
  | Horizontally
  | Vertically
deriving DecidableEq, Repr

/-- src/key.rs `impl From<Stacked> for &'static str`. -/
def Stacked.str : Stacked → String
  | .Horizontally => "horizontal"
  | .Vertically => "vertical"

/-- src/key.rs `KeyProperties`. -/
structure KeyProperties where
  boxed : Bool
  hidden : Bool
  justification : Option Justification
  order : Option Order
  position : Option Position
  stacked : Option Stacked
  title : Option String
deriving DecidableEq, Repr

namespace KeyProperties

/-- src/key.rs `#[derive(Default)]` for `KeyProperties`. -/
def default : KeyProperties :=
  ⟨false, false, none, none, none, none, none⟩

/-- src/key.rs `KeyProperties::hide`. -/
def hide (k : KeyProperties) : KeyProperties := { k with hidden := true }

/-- src/key.rs `KeyProperties::show` (`show` is a Lean keyword, hence the prime). -/
def show' (k : KeyProperties) : KeyProperties := { k with hidden := false }

/-- src/key.rs `KeyProperties::boxed` (named `setBoxed`: the Rust setter
shares the field's name). -/
def setBoxed (k : KeyProperties) (b : Boxed) : KeyProperties :=
  { k with boxed := b.toBool }

/-- src/key.rs `KeyProperties::justification` (named `setJustification`:
the Rust setter shares the field's name). -/
def setJustification (k : KeyProperties) (j : Justification) : KeyProperties :=
  { k with justification := some j }

/-- src/key.rs `KeyProperties::order` (named `setOrder`: the Rust setter
shares the field's name). -/
def setOrder (k : KeyProperties) (o : Order) : KeyProperties :=
  { k with order := some o }

/-- src/key.rs `KeyProperties::position` (named `setPosition`: the Rust
setter shares the field's name). -/
def setPosition (k : KeyProperties) (p : Position) : KeyProperties :=
  { k with position := some p }

/-- src/key.rs `KeyProperties::stacked` (named `setStacked`: the Rust
setter shares the field's name). -/
def setStacked (k : KeyProperties) (s : Stacked) : KeyProperties :=
  { k with stacked := some s }

/-- src/key.rs `KeyProperties::title` (named `setTitle`: the Rust setter
shares the field's name). -/
def setTitle (k : KeyProperties) (t : String) : KeyProperties :=
  { k with title := some t }

/-- src/key.rs `impl Script for KeyProperties`. -/
def script (k : KeyProperties) : String :=
  if k.hidden then
    "set key off\n"
  else
    "set key on "
    ++ (match k.position with
        | none => ""
        | some (.Inside v h) => "inside " ++ v.str ++ " " ++ h.str ++ " "
        | some (.Outside v h) => "outside " ++ v.str ++ " " ++ h.str ++ " ")
    ++ (match k.stacked with
        | some s => s.str ++ " "
        | none => "")
    ++ (match k.justification with
        | some j => j.str ++ " "
        | none => "")
    ++ (match k.order with
        | some o => o.str ++ " "
        | none => "")
    ++ (match k.title with
        | some t => "title '" ++ t ++ "' "
        | none => "")
    ++ (if k.boxed then "box " else "")
    ++ "\n"

end KeyProperties

end key

namespace grid

/-- src/grid.rs `enum GridLayer`. -/
inductive GridLayer where
  | Default
  | Front
  | Back
deriving DecidableEq, Repr

/-- src/grid.rs `impl Display for GridLayer`. -/
def GridLayer.str : GridLayer → String
  | .Default => "layerdefault"
  | .Front => "front"
  | .Back => "back"

/-- src/grid.rs `GridStyle`. -/
structure GridStyle where
  line_width : Option ℚ
  color : Option Color
  line_type : Option LineType
deriving DecidableEq, Repr

namespace GridStyle

/-- src/grid.rs `GridStyle::line_width` (named `setLineWidth`: the Rust
setter shares the field's name). -/
def setLineWidth (g : GridStyle) (width : ℚ) : GridStyle :=
  { g with line_width := some width }

/-- src/grid.rs `GridStyle::color` (named `setColor`: the Rust setter
shares the field's name). -/
def setColor (g : GridStyle) (color : Color) : GridStyle :=
  { g with color := some color }

/-- src/grid.rs `GridStyle::line_type` (named `setLineType`: the Rust
setter shares the field's name). -/
def setLineType (g : GridStyle) (lt : LineType) : GridStyle :=
  { g with line_type := some lt }

/-- src/grid.rs `impl Script for &GridStyle`. -/
def script (g : GridStyle) : String :=
  (match g.line_width with
   | some lw => "lw " ++ fmtQ lw ++ " "
   | none => "")
  ++ (match g.color with
      | some c => "lc rgb '" ++ c.str ++ "' "
      | none => "")
  ++ (match g.line_type with
      | some lt => "lt " ++ lt.str ++ " "
      | none => "")

end GridStyle

/-- src/grid.rs `GridOptions`. -/
structure GridOptions where
  layer : Option GridLayer
  major_style : GridStyle
  minor_style : GridStyle
deriving DecidableEq, Repr

namespace GridOptions

/-- src/grid.rs `impl Default for GridOptions`. -/
def default : GridOptions :=
  ⟨none, ⟨none, none, none⟩, ⟨none, none, none⟩⟩

/-- src/grid.rs `GridOptions::layer` (named `setLayer`: the Rust setter
shares the field's name). -/
def setLayer (g : GridOptions) (layer : GridLayer) : GridOptions :=
  { g with layer := some layer }

/-- src/grid.rs `GridOptions::configure_major`. -/
def configure_major (g : GridOptions) (configure : GridStyle → GridStyle) : GridOptions :=
  { g with major_style := configure g.major_style }

/-- src/grid.rs `GridOptions::configure_minor`. -/
def configure_minor (g : GridOptions) (configure : GridStyle → GridStyle) : GridOptions :=
  { g with minor_style := configure g.minor_style }

/-- src/grid.rs `impl Script for &GridOptions`. -/
def script (g : GridOptions) : String :=
  "set grid "
  ++ (match g.layer with
      | some l => l.str ++ " "
      | none => "")
  ++ g.major_style.script ++ ","
  ++ g.minor_style.script ++ "\n"

end GridOptions

end grid

/-- src/lib.rs `struct Figure`: the top-level aggregate. `output` is the
path rendered with `Display`, modelled as its string. -/
structure Figure where
  alpha : Option ℚ
  axes : Map AxisProperties
  box_width : Option ℚ
  font : Option String
  font_size : Option ℚ
  key : Option key.KeyProperties
  output : String
  plots : List Plot
  size : Option (Nat × Nat)
  terminal : Terminal
  tics : Map String
  title : Option String
  grid : Option grid.GridOptions
deriving DecidableEq, Repr

namespace Figure

/-- src/lib.rs `Figure::new`. -/
def new : Figure where
  alpha := none
  axes := Map.new
  box_width := none
  font := none
  font_size := none
  key := none
  output := "output.plot"
  plots := []
  size := none
  terminal := .Svg
  tics := Map.new
  title := none
  grid := none

/-- src/lib.rs `Figure::box_width` (named `setBoxWidth`: the Rust setter
shares the field's name): `assert!(width >= 0.)`, modelled as `none`
(= panic) for a negative width. -/
def setBoxWidth (f : Figure) (width : ℚ) : Option Figure :=
  if 0 ≤ width then some { f with box_width := some width } else none

/-- src/lib.rs `Figure::font` (named `setFont`: the Rust setter shares the
field's name). -/
def setFont (f : Figure) (name : String) : Figure := { f with font := some name }

/-- src/lib.rs `Figure::font_size` (named `setFontSize`: the Rust setter
shares the field's name): `assert!(size >= 0.)`. -/
def setFontSize (f : Figure) (size : ℚ) : Option Figure :=
  if 0 ≤ size then some { f with font_size := some size } else none

/-- src/lib.rs `Figure::output` (named `setOutput`: the Rust setter shares
the field's name). -/
def setOutput (f : Figure) (o : String) : Figure := { f with output := o }

/-- src/lib.rs `Figure::figure_size`. -/
def figure_size (f : Figure) (width height : Nat) : Figure :=
  { f with size := some (width, height) }

/-- src/lib.rs `Figure::terminal` (named `setTerminal`: the Rust setter
shares the field's name). -/
def setTerminal (f : Figure) (t : Terminal) : Figure := { f with terminal := t }

/-- src/lib.rs `Figure::title` (named `setTitle`: the Rust setter shares
the field's name). -/
def setTitle (f : Figure) (t : String) : Figure := { f with title := some t }

/-- src/lib.rs `Figure::configure_axis`: configures the existing record,
or a `Default::default()` record inserted afresh — the same default for
every axis. -/
def configure_axis (f : Figure) (axis : Axis)
    (configure : AxisProperties → AxisProperties) : Figure :=
  match f.axes.get axis with
  | some props => { f with axes := f.axes.insert axis (configure props) }
  | none => { f with axes := f.axes.insert axis (configure AxisProperties.default) }

/-- src/lib.rs `Figure::configure_key`. -/
def configure_key (f : Figure)
    (configure : key.KeyProperties → key.KeyProperties) : Figure :=
  match f.key with
  | some k => { f with key := some (configure k) }
  | none => { f with key := some (configure key.KeyProperties.default) }

/-- src/lib.rs `Figure::configure_grid`. -/
def configure_grid (f : Figure)
    (configure : grid.GridOptions → grid.GridOptions) : Figure :=
  match f.grid with
  | some g => { f with grid := some (configure g) }
  | none => { f with grid := some (configure grid.GridOptions.default) }

end Figure

/-- src/lib.rs `scale_factor`: the two scale factors of the axis pair,
each defaulting to 1.0 when the axis has no recorded properties. -/
def scale_factor (map : Map AxisProperties) (axes : Axes) : ℚ × ℚ :=
  match axes with
  | .BottomXLeftY =>
    ((map.get .BottomX).elim 1 (fun props => props.scale_factor),
     (map.get .LeftY).elim 1 (fun props => props.scale_factor))
  | .BottomXRightY =>
    ((map.get .BottomX).elim 1 (fun props => props.scale_factor),
     (map.get .RightY).elim 1 (fun props => props.scale_factor))
  | .TopXLeftY =>
    ((map.get .TopX).elim 1 (fun props => props.scale_factor),
     (map.get .LeftY).elim 1 (fun props => props.scale_factor))
  | .TopXRightY =>
    ((map.get .TopX).elim 1 (fun props => props.scale_factor),
     (map.get .RightY).elim 1 (fun props => props.scale_factor))

namespace curve

/-- src/curve.rs `enum Style`. -/
inductive Style where
  | Dots
  | Impulses
  | Lines
  | LinesPoints
  | Points
  | Steps
deriving DecidableEq, Repr

/-- src/curve.rs `impl From<Style> for &'static str`. -/
def Style.str : Style → String
  | .Dots => "dots"
  | .Impulses => "impulses"
  | .Lines => "lines"
  | .LinesPoints => "linespoints"
  | .Points => "points"
  | .Steps => "steps"

/-- src/curve.rs `Properties`: style record common to curve-like plots. -/
structure Properties where
  axes : Option Axes
  color : Option Color
  label : Option String
  line_type : LineType
  line_width : Option ℚ
  point_type : Option PointType
  point_size : Option ℚ
  style : Style
deriving DecidableEq, Repr

namespace Properties

/-- src/curve.rs `Properties::from_style`. -/
def from_style (style : Style) : Properties where
  axes := none
  color := none
  label := none
  line_type := .Solid
  line_width := none
  point_size := none
  point_type := none
  style := style

/-- src/curve.rs `Properties::axes` (named `setAxes`: the Rust setter
shares the field's name). -/
def setAxes (p : Properties) (axes : Axes) : Properties := { p with axes := some axes }

/-- src/curve.rs `Properties::color` (named `setColor`: the Rust setter
shares the field's name). -/
def setColor (p : Properties) (color : Color) : Properties := { p with color := some color }

/-- src/curve.rs `Properties::label` (named `setLabel`: the Rust setter
shares the field's name). -/
def setLabel (p : Properties) (label : String) : Properties := { p with label := some label }

/-- src/curve.rs `Properties::line_type` (named `setLineType`: the Rust
setter shares the field's name). -/
def setLineType (p : Properties) (lt : LineType) : Properties := { p with line_type := lt }

/-- src/curve.rs `Properties::line_width` (named `setLineWidth`: the Rust
setter shares the field's name): `assert!(lw > 0.)`, modelled as `none`
(= panic) for a non-positive width. -/
def setLineWidth (p : Properties) (lw : ℚ) : Option Properties :=
  if 0 < lw then some { p with line_width := some lw } else none

/-- src/curve.rs `Properties::point_size` (named `setPointSize`: the Rust
setter shares the field's name): `assert!(ps > 0.)`, modelled as `none`
(= panic) for a non-positive size. -/
def setPointSize (p : Properties) (ps : ℚ) : Option Properties :=
  if 0 < ps then some { p with point_size := some ps } else none

/-- src/curve.rs `Properties::point_type` (named `setPointType`: the Rust
setter shares the field's name). -/
def setPointType (p : Properties) (pt : PointType) : Properties :=
  { p with point_type := some pt }

/-- src/curve.rs `impl Script for Properties`. -/
def script (p : Properties) : String :=
  (match p.axes with
   | some a => "axes " ++ a.str ++ " "
   | none => "")
  ++ "with " ++ p.style.str ++ " "
  ++ "lt " ++ p.line_type.str ++ " "
  ++ (match p.line_width with
      | some lw => "lw " ++ fmtQ lw ++ " "
      | none => "")
  ++ (match p.color with
      | some c => "lc rgb '" ++ c.str ++ "' "
      | none => "")
  ++ (match p.point_type with
      | some pt => "pt " ++ pt.str ++ " "
      | none => "")
  ++ (match p.point_size with
      | some ps => "ps " ++ fmtQ ps ++ " "
      | none => "")
  ++ (match p.label with
      | some l => "title '" ++ l ++ "'"
      | none => "notitle")

end Properties

/-- src/curve.rs `enum Curve`: the six curve kinds, each with x and y
coordinate sequences. -/
inductive Curve where
  | Dots (x y : List ℚ)
  | Impulses (x y : List ℚ)
  | Lines (x y : List ℚ)
  | LinesPoints (x y : List ℚ)
  | Points (x y : List ℚ)
  | Steps (x y : List ℚ)
deriving DecidableEq, Repr

/-- src/curve.rs `Curve::style`. -/
def Curve.style : Curve → Style
  | .Dots _ _ => .Dots
  | .Impulses _ _ => .Impulses
  | .Lines _ _ => .Lines
  | .LinesPoints _ _ => .LinesPoints
  | .Points _ _ => .Points
  | .Steps _ _ => .Steps

/-- The `let (x, y) = match curve { ... }` destructuring in
src/curve.rs `plot`. -/
def Curve.coords : Curve → List ℚ × List ℚ
  | .Dots x y => (x, y)
  | .Impulses x y => (x, y)
  | .Lines x y => (x, y)
  | .LinesPoints x y => (x, y)
  | .Points x y => (x, y)
  | .Steps x y => (x, y)

/-- src/curve.rs `impl PlotTrait for Figure`, `fn plot`. Note the source
line `configure(props.clone());`: the configured value is computed and
then discarded, so the unconfigured `props` is what reaches both the
scale-factor lookup and the stored style fragment. -/
def plot (f : Figure) (c : Curve) (configure : Properties → Properties) : Figure :=
  let style := c.style
  let xy := c.coords
  let props := Properties.from_style style
  let _ := configure props
  let factors := scale_factor f.axes (props.axes.getD Axes.BottomXLeftY)
  let d := data.Matrix.new [xy.1, xy.2] [factors.1, factors.2]
  { f with plots := f.plots ++ [⟨d, props.script⟩] }

end curve

namespace filledcurve

/-- src/filledcurve.rs `Properties`. -/
structure Properties where
  axes : Option Axes
  color : Option Color
  label : Option String
  opacity : Option ℚ
deriving DecidableEq, Repr

namespace Properties

/-- src/filledcurve.rs `#[derive(Default)]` for `Properties`. -/
def default : Properties := ⟨none, none, none, none⟩

/-- src/filledcurve.rs `Properties::axes` (named `setAxes`: the Rust
setter shares the field's name). -/
def setAxes (p : Properties) (axes : Axes) : Properties := { p with axes := some axes }

/-- src/filledcurve.rs `Properties::color` (named `setColor`: the Rust
setter shares the field's name). -/
def setColor (p : Properties) (color : Color) : Properties := { p with color := some color }

/-- src/filledcurve.rs `Properties::label` (named `setLabel`: the Rust
setter shares the field's name). -/
def setLabel (p : Properties) (label : String) : Properties := { p with label := some label }

/-- src/filledcurve.rs `Properties::opacity` (named `setOpacity`: the Rust
setter shares the field's name). The source stores the value with no
check, although its own doc comment promises a panic outside [0, 1]. -/
def setOpacity (p : Properties) (opacity : ℚ) : Properties :=
  { p with opacity := some opacity }

/-- src/filledcurve.rs `impl Script for Properties`. -/
def script (p : Properties) : String :=
  (match p.axes with
   | some a => "axes " ++ a.str ++ " "
   | none => "")
  ++ "with filledcurves "
  ++ "fillstyle "
  ++ (match p.opacity with
      | some o => "solid " ++ fmtQ o ++ " "
      | none => "")
  ++ "noborder "
  ++ (match p.color with
      | some c => "lc rgb '" ++ c.str ++ "' "
      | none => "")
  ++ (match p.label with
      | some l => "title '" ++ l ++ "'"
      | none => "notitle")

end Properties

/-- src/filledcurve.rs `FilledCurve`. -/
structure FilledCurve where
  x : List ℚ
  y1 : List ℚ
  y2 : List ℚ
deriving DecidableEq, Repr

/-- src/filledcurve.rs `impl PlotTrait for Figure`, `fn plot`. As in
src/curve.rs, `configure(props.clone());` discards the configured value. -/
def plot (f : Figure) (fc : FilledCurve) (configure : Properties → Properties) : Figure :=
  let props := Properties.default
  let _ := configure props
  let factors := scale_factor f.axes (props.axes.getD Axes.BottomXLeftY)
  let d := data.Matrix.new [fc.x, fc.y1, fc.y2] [factors.1, factors.2, factors.2]
  { f with plots := f.plots ++ [⟨d, props.script⟩] }

end filledcurve

namespace errorbar

/-- src/errorbar.rs `enum Style`. -/
inductive Style where
  | XErrorBars
  | XErrorLines
  | YErrorBars
  | YErrorLines
deriving DecidableEq, Repr

/-- src/errorbar.rs `impl Display for Style`. -/
def Style.str : Style → String
  | .XErrorBars => "xerrorbars"
  | .XErrorLines => "xerrorlines"
  | .YErrorBars => "yerrorbars"
  | .YErrorLines => "yerrorlines"

/-- src/errorbar.rs `Properties`. -/
structure Properties where
  color : Option Color
  label : Option String
  line_type : LineType
  linewidth : Option ℚ
  point_size : Option ℚ
  point_type : Option PointType
  style : Style
deriving DecidableEq, Repr

namespace Properties

/-- src/errorbar.rs `impl ErrorBarDefault<Style> for Properties`. -/
def default (style : Style) : Properties where
  color := none
  label := none
  line_type := .Solid
  linewidth := none
  point_type := none
  point_size := none
  style := style

/-- src/errorbar.rs `Properties::color` (named `setColor`: the Rust
setter shares the field's name). -/
def setColor (p : Properties) (color : Color) : Properties := { p with color := some color }

/-- src/errorbar.rs `Properties::label` (named `setLabel`: the Rust
setter shares the field's name). -/
def setLabel (p : Properties) (label : String) : Properties := { p with label := some label }

/-- src/errorbar.rs `Properties::line_type` (named `setLineType`: the
Rust setter shares the field's name). -/
def setLineType (p : Properties) (lt : LineType) : Properties := { p with line_type := lt }

/-- src/errorbar.rs `Properties::line_width` (named `setLineWidth`; the
stored field is `linewidth`): `assert!(lw > 0.)`, modelled as `none`
(= panic) for a non-positive width. -/
def setLineWidth (p : Properties) (lw : ℚ) : Option Properties :=
  if 0 < lw then some { p with linewidth := some lw } else none

/-- src/errorbar.rs `Properties::point_size` (named `setPointSize`: the
Rust setter shares the field's name): `assert!(ps > 0.)`, modelled as
`none` (= panic) for a non-positive size. -/
def setPointSize (p : Properties) (ps : ℚ) : Option Properties :=
  if 0 < ps then some { p with point_size := some ps } else none

/-- src/errorbar.rs `Properties::point_type` (named `setPointType`: the
Rust setter shares the field's name). -/
def setPointType (p : Properties) (pt : PointType) : Properties :=
  { p with point_type := some pt }

/-- src/errorbar.rs `impl Script for Properties` (no axes clause: error
bars always plot against `BottomXLeftY`). -/
def script (p : Properties) : String :=
  "with " ++ p.style.str ++ " "
  ++ "lt " ++ p.line_type.str ++ " "
  ++ (match p.linewidth with
      | some lw => "lw " ++ fmtQ lw ++ " "
      | none => "")
  ++ (match p.color with
      | some c => "lc rgb '" ++ c.str ++ "' "
      | none => "")
  ++ (match p.point_type with
      | some pt => "pt " ++ pt.str ++ " "
      | none => "")
  ++ (match p.point_size with
      | some ps => "ps " ++ fmtQ ps ++ " "
      | none => "")
  ++ (match p.label with
      | some l => "title '" ++ l ++ "'"
      | none => "notitle")

end Properties

/-- src/errorbar.rs `enum ErrorBar`: four variants, each with one pair of
(low, high) offset columns. -/
inductive ErrorBar where
  | XErrorBars (x y x_low x_high : List ℚ)
  | XErrorLines (x y x_low x_high : List ℚ)
  | YErrorBars (x y y_low y_high : List ℚ)
  | YErrorLines (x y y_low y_high : List ℚ)
deriving DecidableEq, Repr

/-- src/errorbar.rs `ErrorBar::style`. -/
def ErrorBar.style : ErrorBar → Style
  | .XErrorBars _ _ _ _ => .XErrorBars
  | .XErrorLines _ _ _ _ => .XErrorLines
  | .YErrorBars _ _ _ _ => .YErrorBars
  | .YErrorLines _ _ _ _ => .YErrorLines

/-- The `let (x, y, length, height, e_factor) = match e { ... }` in
src/errorbar.rs `plot`: the error columns of the X variants take the
x-axis factor, those of the Y variants the y-axis factor. -/
def ErrorBar.parts (e : ErrorBar) (x_factor y_factor : ℚ) :
    List ℚ × List ℚ × List ℚ × List ℚ × ℚ :=
  match e with
  | .XErrorBars x y x_low x_high => (x, y, x_low, x_high, x_factor)
  | .XErrorLines x y x_low x_high => (x, y, x_low, x_high, x_factor)
  | .YErrorBars x y y_low y_high => (x, y, y_low, y_high, y_factor)
  | .YErrorLines x y y_low y_high => (x, y, y_low, y_high, y_factor)

/-- src/errorbar.rs `impl PlotTrait for Figure`, `fn plot`: the axis pair
is always `BottomXLeftY`, and — unlike src/curve.rs — the configured
properties ARE used for the stored fragment. -/
def plot (f : Figure) (e : ErrorBar) (configure : Properties → Properties) : Figure :=
  let factors := scale_factor f.axes Axes.BottomXLeftY
  let style := e.style
  let parts := e.parts factors.1 factors.2
  let d := data.Matrix.new [parts.1, parts.2.1, parts.2.2.1, parts.2.2.2.1]
    [factors.1, factors.2, parts.2.2.2.2, parts.2.2.2.2]
  { f with plots := f.plots ++ [⟨d, (configure (Properties.default style)).script⟩] }

end errorbar

namespace candlestick

/-- src/candlestick.rs `Properties`. -/
structure Properties where
  color : Option Color
  label : Option String
  line_type : LineType
  line_width : Option ℚ
deriving DecidableEq, Repr

namespace Properties

/-- src/candlestick.rs `#[derive(Default)]` for `Properties`; the
`LineType` default (`Solid`) is modelled from the spec, its impl living in
the absent src/display.rs. -/
def default : Properties := ⟨none, none, .Solid, none⟩

/-- src/candlestick.rs `Properties::color` (named `setColor`: the Rust
setter shares the field's name). -/
def setColor (p : Properties) (color : Color) : Properties := { p with color := some color }

/-- src/candlestick.rs `Properties::label` (named `setLabel`: the Rust
setter shares the field's name). -/
def setLabel (p : Properties) (label : String) : Properties := { p with label := some label }

/-- src/candlestick.rs `Properties::line_type` (named `setLineType`: the
Rust setter shares the field's name). -/
def setLineType (p : Properties) (lt : LineType) : Properties := { p with line_type := lt }

/-- src/candlestick.rs `Properties::line_width` (named `setLineWidth`: the
Rust setter shares the field's name). The source stores the value with no
check: no assert guards against non-positive widths. -/
def setLineWidth (p : Properties) (lw : ℚ) : Properties :=
  { p with line_width := some lw }

/-- src/candlestick.rs `impl Script for Properties`. -/
def script (p : Properties) : String :=
  "with candlesticks "
  ++ "lt " ++ p.line_type.str ++ " "
  ++ (match p.line_width with
      | some lw => "lw " ++ fmtQ lw ++ " "
      | none => "")
  ++ (match p.color with
      | some c => "lc rgb '" ++ c.str ++ "' "
      | none => "")
  ++ (match p.label with
      | some l => "title '" ++ l ++ "'"
      | none => "notitle")

end Properties

/-- src/candlestick.rs `Candlesticks`. -/
structure Candlesticks where
  x : List ℚ
  whisker_min : List ℚ
  box_min : List ℚ
  box_high : List ℚ
  whisker_high : List ℚ
deriving DecidableEq, Repr

/-- src/candlestick.rs `impl PlotTrait for Figure`, `fn plot`: always
`BottomXLeftY`; column order x, box_min, whisker_min, whisker_high,
box_high; the configured properties are used. -/
def plot (f : Figure) (cs : Candlesticks) (configure : Properties → Properties) : Figure :=
  let factors := scale_factor f.axes Axes.BottomXLeftY
  let d := data.Matrix.new [cs.x, cs.box_min, cs.whisker_min, cs.whisker_high, cs.box_high]
    [factors.1, factors.2, factors.2, factors.2, factors.2]
  { f with plots := f.plots ++ [⟨d, (configure Properties.default).script⟩] }

end candlestick

/-- One element of the compiled byte stream: a text byte (modelled at
character granularity) or one 8-byte little-endian float64 block of a
series payload. -/
inductive OByte where
  | ch (c : Char)
  | f64 (q : ℚ)
deriving DecidableEq, Repr

/-- The UTF-8 bytes of the directive text, at character granularity. -/
def strBytes (s : String) : List OByte := s.data.map OByte.ch

/-- The inner column-index loop of src/lib.rs `Figure::script`
(`is_first_col`): `1:2:...:K`. -/
def usingCols (k : Nat) : String :=
  ((List.range k).foldl
    (fun acc col => ((if acc.2 then acc.1 else acc.1 ++ ":") ++ toString (col + 1), false))
    ("", true)).1

/-- One binary-data clause of the plot line: record count, format, the
`:`-joined column-index list, one space, then the stored style fragment. -/
def plotClause (p : Plot) : String :=
  "'-' binary endian=little record=" ++ toString p.data.nrows
  ++ " format='%float64' using " ++ usingCols p.data.ncols ++ " " ++ p.script

/-- The plot-line loop of src/lib.rs `Figure::script`: series with an
empty byte view are skipped (`continue`) leaving `is_first_plot` as it
was; the first emitted clause is prefixed by `plot `, later ones by a
comma. -/
def plotLineLoop : List Plot → Bool → String
  | [], _ => ""
  | p :: ps, isFirst =>
    if p.data.bytes.isEmpty then plotLineLoop ps isFirst
    else (if isFirst then "plot " else ", ") ++ plotClause p ++ plotLineLoop ps false

/-- The trailing binary loop of src/lib.rs `Figure::script`: one newline
byte is pushed on the first iteration (any registered series, empty or
not), then every series' bytes are appended with no separators. -/
def binaryLoop : List Plot → Bool → List OByte
  | [], _ => []
  | p :: ps, isFirst =>
    (if isFirst then [OByte.ch '\n'] else [])
    ++ p.data.bytes.map OByte.f64 ++ binaryLoop ps false

namespace Figure

/-- The string `s` assembled by src/lib.rs `Figure::script` before the
buffer stage: preamble, optional box width and title, axis fragments in
registry order, standalone tic scripts, key, grid, fill transparency,
terminal line, `unset bars`, then the plot line. -/
def figText (f : Figure) : String :=
  "set encoding utf8\n"
  ++ "set output '" ++ f.output ++ "'\n"
  ++ (match f.box_width with
      | some width => "set boxwidth " ++ fmtQ width ++ "\n"
      | none => "")
  ++ (match f.title with
      | some title => "set title '" ++ title ++ "'\n"
      | none => "")
  ++ String.join (f.axes.iter.map (fun kv => AxisProperties.script kv.1 kv.2))
  ++ String.join (f.tics.iter.map (fun kv => kv.2))
  ++ (match f.key with
      | some k => k.script
      | none => "")
  ++ (match f.grid with
      | some g => g.script
      | none => "")
  ++ (match f.alpha with
      | some alpha => "set style fill transparent solid " ++ fmtQ alpha ++ "\n"
      | none => "")
  ++ "set terminal " ++ f.terminal.str ++ " dashed"
  ++ (match f.size with
      | some wh => " size " ++ toString wh.1 ++ ", " ++ toString wh.2
      | none => "")
  ++ (match f.font with
      | some name =>
        match f.font_size with
        | some size => " font '" ++ name ++ "," ++ fmtQ size ++ "'"
        | none => " font '" ++ name ++ "'"
      | none => "")
  ++ "\nunset bars\n"
  ++ plotLineLoop f.plots true

/-- src/lib.rs `Figure::script`: the directive text converted to bytes,
then the binary stage appending one newline and the payloads. -/
def script (f : Figure) : List OByte :=
  strBytes (figText f) ++ binaryLoop f.plots true

end Figure

/-- C2 (code bug): evaluation of the setters at contract-violating
arguments. The Figure box-width setter and the curve/error-bar width and
size setters do reject eagerly (`none` models the assert firing), but the
filled-curve opacity setter accepts and stores 2 (its own doc comment
promises a panic outside [0, 1]) and the candlestick line-width setter
accepts and stores -1: neither rejects, neither clamps. -/
theorem c2_contract_checks :
    (filledcurve.Properties.default.setOpacity 2).opacity = some 2
    ∧ (candlestick.Properties.default.setLineWidth (-1)).line_width = some (-1)
    ∧ Figure.new.setBoxWidth (-1) = none
    ∧ (curve.Properties.from_style .Lines).setLineWidth 0 = none
    ∧ (curve.Properties.from_style .Lines).setPointSize 0 = none
    ∧ (errorbar.Properties.default .YErrorBars).setLineWidth 0 = none
    ∧ (errorbar.Properties.default .YErrorBars).setPointSize 0 = none := by
  refine ⟨rfl, rfl, ?_, ?_, ?_, ?_, ?_⟩ <;>
    simp [Figure.setBoxWidth, curve.Properties.setLineWidth, curve.Properties.setPointSize,
      errorbar.Properties.setLineWidth, errorbar.Properties.setPointSize]

/-- C3 counterexample: on a hidden record, attaching a non-empty
tic-label list leaves the record hidden — the tick-labels setter does not
un-hide, contradicting the claim that all three setters do. -/
theorem c3_cex_tick_labels_keeps_hidden :
    ((AxisProperties.default.hide).tick_labels [1] ["a"]).hidden = true := by
  rfl

/-- C3 as amended: the range and scale setters always leave the record
un-hidden, while the tick-labels setter leaves the hidden flag exactly as
it was. -/
theorem c3_range_scale_unhide (p : AxisProperties) (r : Range) (s : Scale)
    (pos : List ℚ) (labs : List String) :
    (p.setRange r).hidden = false
    ∧ (p.scale s).hidden = false
    ∧ (p.tick_labels pos labs).hidden = p.hidden := by
  refine ⟨?_, ?_, ?_⟩
  · cases r <;> rfl
  · cases s <;> rfl
  · simp only [AxisProperties.tick_labels]
    split <;> rfl

/-- C4 counterexample: configuring the TopX axis on a fresh figure stores
a record whose visibility flag is `hidden = false` — visible, not hidden
as the claim states for TopX. -/
theorem c4_cex_topx_default_visible :
    ((Figure.new.configure_axis .TopX id).axes.get .TopX).map AxisProperties.hidden
      = some false := by
  rfl

/-- C4 as amended: the default axis-properties record does not depend on
which axis it is for — when any of the four axes is first configured, the
record starts from the same `Default::default()`, whose visibility flag is
visible (`hidden = false`) for BottomX, LeftY, RightY and TopX alike. -/
theorem c4_default_same_for_all_axes (a : Axis) :
    (Figure.new.configure_axis a id).axes.get a = some AxisProperties.default
    ∧ AxisProperties.default.hidden = false := by
  cases a <;> exact ⟨rfl, rfl⟩

/-- C1 (code bug): evaluation of series registration at a failing input.
The figure records a RightY scale factor of 2 and the caller's configure
step selects the BottomXRightY pair and a label, yet the registered plot
stores the unconfigured default fragment (no axes clause, `notitle`) and a
matrix built with both factors 1 (the BottomXLeftY lookup): src/curve.rs
and src/filledcurve.rs compute `configure(props.clone())` and discard it.
The final conjuncts show the configuration was not a no-op and that the
configured axis pair would have yielded a different factor pair. -/
theorem c1_configure_discarded :
    ((curve.plot (Figure.new.configure_axis .RightY (fun p => p.setScaleFactor 2))
        (.Lines [1, 2] [3, 4])
        (fun p => (p.setAxes .BottomXRightY).setLabel "Phase")).plots
      = [⟨data.Matrix.new [[1, 2], [3, 4]] [1, 1],
          (curve.Properties.from_style .Lines).script⟩])
    ∧ ((filledcurve.plot Figure.new ⟨[1], [2], [3]⟩ (fun p => p.setLabel "L")).plots
      = [⟨data.Matrix.new [[1], [2], [3]] [1, 1, 1],
          filledcurve.Properties.default.script⟩])
    ∧ (((curve.Properties.from_style .Lines).setAxes .BottomXRightY).setLabel "Phase").script
      ≠ (curve.Properties.from_style .Lines).script
    ∧ scale_factor (Figure.new.configure_axis .RightY
        (fun p => p.setScaleFactor 2)).axes .BottomXRightY
      ≠ scale_factor (Figure.new.configure_axis .RightY
        (fun p => p.setScaleFactor 2)).axes .BottomXLeftY := by
  exact ⟨rfl, rfl, by decide, by decide⟩

/-- C7: the script fragment of an (axis, properties) pair. On a hidden
record — whatever its other fields hold — the fragment is exactly the one
`unset <axis>tics` directive, every other directive suppressed; on a
visible record it is the tics directive (with the stored tic-label list in
parentheses when set), then the label, range and log-scale directives
(each only when set), then the major-grid and minor-grid fragments, in
that fixed order. -/
theorem c7_axis_fragment_order (a : Axis) (p : AxisProperties) :
    AxisProperties.script a { p with hidden := true } = "unset " ++ a.str ++ "tics\n"
    ∧ AxisProperties.script a { p with hidden := false } =
      "set " ++ a.str ++ "tics nomirror "
      ++ (match p.tics with
          | some tics => "(" ++ tics ++ ")"
          | none => "")
      ++ "\n"
      ++ (match p.label with
          | some label => "set " ++ a.str ++ "label '" ++ label ++ "'\n"
          | none => "")
      ++ (match p.range with
          | some lh => "set " ++ a.str ++ "range [" ++ fmtQ lh.1 ++ ":" ++ fmtQ lh.2 ++ "]\n"
          | none => "")
      ++ (if p.logarithmic then "set logscale " ++ a.str ++ "\n" else "")
      ++ Gridline.script a p.major_grid
      ++ Gridline.script a p.minor_grid :=
  ⟨rfl, rfl⟩

/-- Prepending onto the accumulator of `String.intercalate.go` factors
out of the join. -/
theorem intercalate_go_append (s : String) (l : List String) :
    ∀ (a b : String), String.intercalate.go (a ++ b) s l
      = a ++ String.intercalate.go b s l := by
  induction l with
  | nil => intro a b; rfl
  | cons c l ih =>
    intro a b
    show String.intercalate.go (a ++ b ++ s ++ c) s l
      = a ++ String.intercalate.go (b ++ s ++ c) s l
    rw [String.append_assoc, String.append_assoc, ← String.append_assoc b s c,
      ih a (b ++ s ++ c)]

/-- `String.intercalate` over two or more pieces: head, separator, rest. -/
theorem intercalate_cons₂ (s a b : String) (l : List String) :
    String.intercalate s (a :: b :: l) = a ++ s ++ String.intercalate s (b :: l) := by
  show String.intercalate.go a s (b :: l) = a ++ s ++ String.intercalate.go b s l
  show String.intercalate.go (a ++ s ++ b) s l = a ++ s ++ String.intercalate.go b s l
  exact intercalate_go_append s l (a ++ s) b

/-- Closed form of the plot-line loop: the skipped series drop out, the
surviving clauses are comma-joined, and the pending flag chooses the
`plot ` prefix. -/
theorem plotLineLoop_eq (ps : List Plot) (b : Bool) :
    plotLineLoop ps b =
      match ps.filter (fun p => !p.data.bytes.isEmpty) with
      | [] => ""
      | q :: qs =>
        (if b then "plot " else ", ")
        ++ String.intercalate ", " ((q :: qs).map plotClause) := by
  induction ps generalizing b with
  | nil => rfl
  | cons p ps ih =>
    by_cases hp : p.data.bytes.isEmpty
    · rw [plotLineLoop, if_pos hp, ih b, List.filter_cons_of_neg (by simp [hp])]
    · rw [plotLineLoop, if_neg hp, List.filter_cons_of_pos (by simp [hp]), ih false]
      cases hfilter : ps.filter (fun p => !p.data.bytes.isEmpty) with
      | nil =>
        show (if b then "plot " else ", ") ++ plotClause p ++ ""
          = (if b then "plot " else ", ") ++ String.intercalate ", " [plotClause p]
        rw [String.append_empty]
        rfl
      | cons q qs =>
        show (if b then "plot " else ", ") ++ plotClause p
            ++ (", " ++ String.intercalate ", " ((q :: qs).map plotClause))
          = (if b then "plot " else ", ")
            ++ String.intercalate ", " (plotClause p :: (q :: qs).map plotClause)
        rw [List.map_cons, intercalate_cons₂]
        simp [String.append_assoc]

/-- Closed form of the trailing binary loop: one newline iff any series
was registered (pending flag set), then all payloads concatenated. -/
theorem binaryLoop_eq (ps : List Plot) (b : Bool) :
    binaryLoop ps b =
      (if ps.isEmpty then [] else if b then [OByte.ch '\n'] else [])
      ++ (ps.map (fun p => p.data.bytes.map OByte.f64)).flatten := by
  induction ps generalizing b with
  | nil => rfl
  | cons p ps ih =>
    rw [binaryLoop, ih false]
    cases b <;> simp

/-- Series with an empty byte view contribute nothing to the concatenated
payload: flattening over all series equals flattening over the non-empty
ones. -/
theorem flatten_filter_nonempty (ps : List Plot) :
    (ps.map (fun p => p.data.bytes.map OByte.f64)).flatten
      = ((ps.filter (fun p => !p.data.bytes.isEmpty)).map
          (fun p => p.data.bytes.map OByte.f64)).flatten := by
  induction ps with
  | nil => rfl
  | cons p ps ih =>
    by_cases hp : p.data.bytes.isEmpty
    · rw [List.filter_cons_of_neg (by simp [hp])]
      have : p.data.bytes = [] := List.isEmpty_iff.mp hp
      simp [this, ih]
    · rw [List.filter_cons_of_pos (by simp [hp])]
      simp [ih]

/-- C5: for a figure whose registered matrices are well-formed (non-zero
column count, buffer length = rows × cols — true of every constructible
matrix), compilation skips exactly the zero-row series in both places:
the plot line is one `plot `-prefixed comma-separated clause list over the
series with at least one row, in registration order, and the binary
section is the concatenation of exactly those series' payloads with no
separators. -/
theorem c5_script_skips_empty_series (f : Figure)
    (h : ∀ p ∈ f.plots,
      p.data.ncols ≠ 0 ∧ p.data.buf.length = p.data.nrows * p.data.ncols) :
    plotLineLoop f.plots true =
      (match f.plots.filter (fun p => p.data.nrows != 0) with
       | [] => ""
       | q :: qs => "plot " ++ String.intercalate ", " ((q :: qs).map plotClause))
    ∧ Figure.script f =
      strBytes (Figure.figText f)
      ++ (if f.plots.isEmpty then [] else [OByte.ch '\n'])
      ++ ((f.plots.filter (fun p => p.data.nrows != 0)).map
            (fun p => p.data.bytes.map OByte.f64)).flatten := by
  have hpred : ∀ p ∈ f.plots, (!p.data.bytes.isEmpty) = (p.data.nrows != 0) := by
    intro p hp
    rcases h p hp with ⟨hc, hl⟩
    rcases Nat.eq_zero_or_pos p.data.nrows with hz | hpos
    · have : p.data.buf.length = 0 := by rw [hl, hz, Nat.zero_mul]
      simp [data.Matrix.bytes, List.isEmpty_iff, List.length_eq_zero.mp this, hz]
    · have hlen : p.data.buf.length ≠ 0 := by
        rw [hl]; exact Nat.mul_ne_zero (Nat.pos_iff_ne_zero.mp hpos) hc
      have hne : p.data.buf ≠ [] := by
        intro hnil; exact hlen (by rw [hnil]; rfl)
      have h1 : p.data.bytes.isEmpty = false := by
        simp [data.Matrix.bytes, List.isEmpty_iff, hne]
      have h2 : (p.data.nrows != 0) = true := by
        simp [bne_iff_ne, Nat.pos_iff_ne_zero.mp hpos]
      rw [h1, h2]; rfl
  have hfilter : f.plots.filter (fun p => !p.data.bytes.isEmpty)
      = f.plots.filter (fun p => p.data.nrows != 0) :=
    List.filter_congr hpred
  constructor
  · rw [plotLineLoop_eq, hfilter]
    rcases f.plots.filter (fun p => p.data.nrows != 0) with _ | ⟨q, qs⟩ <;> rfl
  · rw [Figure.script, binaryLoop_eq, flatten_filter_nonempty, hfilter,
      List.append_assoc]
    rfl

/-- Concrete figure for the C5 witness: one registered zero-row series,
then one 1×2 series. -/
def c5Fig : Figure :=
  { Figure.new with
      plots := [⟨⟨0, 2, []⟩, "with lines notitle"⟩, ⟨⟨1, 2, [5, 6]⟩, "with dots notitle"⟩] }

/-- C5 witness: the hypotheses hold of `c5Fig` and the theorem applies. -/
theorem c5_script_skips_empty_series_witness :
    (∀ p ∈ c5Fig.plots,
      p.data.ncols ≠ 0 ∧ p.data.buf.length = p.data.nrows * p.data.ncols)
    ∧ (plotLineLoop c5Fig.plots true =
        (match c5Fig.plots.filter (fun p => p.data.nrows != 0) with
         | [] => ""
         | q :: qs => "plot " ++ String.intercalate ", " ((q :: qs).map plotClause))
      ∧ Figure.script c5Fig =
        strBytes (Figure.figText c5Fig)
        ++ (if c5Fig.plots.isEmpty then [] else [OByte.ch '\n'])
        ++ ((c5Fig.plots.filter (fun p => p.data.nrows != 0)).map
              (fun p => p.data.bytes.map OByte.f64)).flatten) :=
  ⟨by decide, c5_script_skips_empty_series c5Fig (by decide)⟩

/-- C10: whenever at least one series is registered the compiled output is
the directive text, exactly one appended newline byte, then the binary
payloads; and when every registered matrix is empty the output is the
directives followed by that lone newline — differing from the no-series
figure's output by exactly that byte. -/
theorem c10_trailing_newline (f : Figure) (h : f.plots ≠ []) :
    Figure.script f =
      strBytes (Figure.figText f) ++ [OByte.ch '\n']
      ++ (f.plots.map (fun p => p.data.bytes.map OByte.f64)).flatten
    ∧ ((∀ p ∈ f.plots, p.data.bytes = []) →
        Figure.script f = Figure.script { f with plots := [] } ++ [OByte.ch '\n']) := by
  have hne : f.plots.isEmpty = false := by
    cases hp : f.plots with
    | nil => exact absurd hp h
    | cons p ps => rfl
  constructor
  · rw [Figure.script, binaryLoop_eq, hne, List.append_assoc]
    rfl
  · intro hall
    have hflat : (f.plots.map (fun p => p.data.bytes.map OByte.f64)).flatten = [] := by
      rw [List.flatten_eq_nil_iff]
      intro l hl
      rcases List.mem_map.mp hl with ⟨p, hp, hpl⟩
      rw [← hpl, hall p hp]; rfl
    have hline : plotLineLoop f.plots true = "" := by
      rw [plotLineLoop_eq]
      have : f.plots.filter (fun p => !p.data.bytes.isEmpty) = [] := by
        rw [List.filter_eq_nil_iff]
        intro p hp
        simp [hall p hp]
      rw [this]
    have htext : Figure.figText f = Figure.figText { f with plots := [] } := by
      rcases f with ⟨alpha, axes, bw, font, fs, key, out, plots, size, term, tics, title, grid⟩
      show Figure.figText ⟨alpha, axes, bw, font, fs, key, out, plots, size, term, tics, title, grid⟩
        = Figure.figText ⟨alpha, axes, bw, font, fs, key, out, [], size, term, tics, title, grid⟩
      unfold Figure.figText
      dsimp only
      rw [hline]
      rfl
    rw [Figure.script, Figure.script, binaryLoop_eq, binaryLoop_eq, hne, hflat, htext]
    simp

/-- Concrete figure for the C10 witness: one registered zero-row series. -/
def c10Fig : Figure :=
  { Figure.new with plots := [⟨⟨0, 2, []⟩, "with lines notitle"⟩] }

/-- C10 witness: `c10Fig` has a registered series and the theorem applies. -/
theorem c10_trailing_newline_witness :
    c10Fig.plots ≠ []
    ∧ (Figure.script c10Fig =
        strBytes (Figure.figText c10Fig) ++ [OByte.ch '\n']
        ++ (c10Fig.plots.map (fun p => p.data.bytes.map OByte.f64)).flatten
      ∧ ((∀ p ∈ c10Fig.plots, p.data.bytes = []) →
          Figure.script c10Fig = Figure.script { c10Fig with plots := [] } ++ [OByte.ch '\n'])) :=
  ⟨by decide, c10_trailing_newline c10Fig (by decide)⟩


/-- Splitter worker over characters: `acc` is the current word reversed.
Empty pieces are dropped, as Rust `split_whitespace` does. -/
def splitWSAux : List Char → List Char → List String
  | [], acc => if acc.isEmpty then [] else [String.mk acc.reverse]
  | c :: cs, acc =>
    if c.isWhitespace then
      (if acc.isEmpty then [] else [String.mk acc.reverse]) ++ splitWSAux cs []
    else splitWSAux cs (c :: acc)

/-- Rust `str::split_whitespace`: whitespace-separated words, empty pieces
dropped (modelled character by character so it computes in the kernel;
`Char.isWhitespace` models the whitespace class, which agrees with Rust on
the ASCII whitespace all version lines use). -/
def splitWhitespace (s : String) : List String := splitWSAux s.data []

/-- Splitter worker for `split('.')`: every separator produces a piece, so
the result is never empty (the empty string yields `[""]`). -/
def splitDotAux : List Char → List Char → List String
  | [], acc => [String.mk acc.reverse]
  | c :: cs, acc =>
    if c = '.' then String.mk acc.reverse :: splitDotAux cs []
    else splitDotAux cs (c :: acc)

/-- Rust `str::split('.')`. -/
def splitDot (s : String) : List String := splitDotAux s.data []

/-- Rust `str::parse::<usize>`: an optional single leading `+`, then one
or more decimal digits, rejecting overflow past the 64-bit range. -/
def parseUsize (s : String) : Option Nat :=
  let t := match s.data with
    | '+' :: rest => rest
    | cs => cs
  if t.isEmpty then none
  else if t.all Char.isDigit then
    let v := t.foldl (fun acc c => acc * 10 + (c.toNat - 48)) 0
    if v < 2 ^ 64 then some v else none
  else none

/-- src/lib.rs `struct Version`. -/
structure Version where
  major : Nat
  minor : Nat
  patch : String
deriving DecidableEq, Repr

/-- src/lib.rs `enum VersionError`; the `io::Error` payload of `Exec` is
irrelevant to the claims and elided. -/
inductive VersionError where
  | Exec
  | Error (msg : String)
  | OutputError
  | ParseError (msg : String)
deriving DecidableEq, Repr

instance {ε α : Type} [DecidableEq ε] [DecidableEq α] : DecidableEq (Except ε α)
  | .ok a, .ok b => decidable_of_iff (a = b) (by simp)
  | .ok _, .error _ => isFalse (by simp)
  | .error _, .ok _ => isFalse (by simp)
  | .error d, .error e => decidable_of_iff (d = e) (by simp)

/-- src/lib.rs `parse_version`: skip the first whitespace-separated word,
split the next on `.` into major and minor (numeric), and take the second
of the remaining words as the patch level. The error is `none` for a
missing token (`ok_or(None)?`) and `some ()` for a failed integer parse
(`ParseIntError`). -/
def parse_version (version_str : String) : Except (Option Unit) Version :=
  match (splitWhitespace version_str).drop 1 with
  | [] => .error none
  | w :: rest =>
    match splitDot w with
    | [] => .error none
    | c1 :: ctail =>
      match parseUsize c1 with
      | none => .error (some ())
      | some major =>
        match ctail with
        | [] => .error none
        | c2 :: _ =>
          match parseUsize c2 with
          | none => .error (some ())
          | some minor =>
            match rest.get? 1 with
            | none => .error none
            | some patchlevel => .ok ⟨major, minor, patchlevel⟩

/-- src/lib.rs `version`, after a successful `gnuplot --version` run with
UTF-8 output (the process spawning itself is outside the core): any
`parse_version` error becomes `ParseError` carrying the whole output
text. -/
def versionFromOutput (output : String) : Except VersionError Version :=
  match parse_version output with
  | .ok v => .ok v
  | .error _ => .error (.ParseError output)

/-- The spec's failure condition on the version text: an expected token is
missing (no dotted-version word, no minor component after the dot, no
patch word) or non-numeric where a number is required (major, minor). -/
def versionTokensBad (out : String) : Bool :=
  match (splitWhitespace out).drop 1 with
  | [] => true
  | w :: rest =>
    (parseUsize ((splitDot w).getD 0 "")).isNone
    || decide ((splitDot w).length < 2)
    || (parseUsize ((splitDot w).getD 1 "")).isNone
    || decide (rest.length < 2)

/-- Helper for C9: a successful parse certifies that none of the expected
tokens was missing or non-numeric. -/
theorem parse_ok_tokens_good (out : String) (v : Version)
    (hv : parse_version out = .ok v) : versionTokensBad out = false := by
  unfold parse_version at hv
  unfold versionTokensBad
  split at hv
  next heq => exact Except.noConfusion hv
  next w rest heq =>
    split at hv
    next => exact Except.noConfusion hv
    next c1 ctail heq2 =>
      split at hv
      next => exact Except.noConfusion hv
      next major heq3 =>
        split at hv
        next => exact Except.noConfusion hv
        next c2 ctail2 =>
          split at hv
          next => exact Except.noConfusion hv
          next minor heq5 =>
            split at hv
            next => exact Except.noConfusion hv
            next patch heq6 =>
              have hlen : 1 < rest.length := by
                rcases List.get?_eq_some.mp heq6 with ⟨hn, _⟩
                exact hn
              rw [heq2]
              have h1 : ¬ ((ctail2.length + 1 + 1) < 2) := by omega
              have h2 : ¬ (rest.length < 2) := by omega
              simp [heq3, heq5, h1, h2]

/-- C9: the Gentoo-style version line parses to major 5, minor 2, patch
`5a`; the line `gnuplot 50 patchlevel 7` fails with a missing-token parse
error (the word `50` is taken as the whole dotted version, so the expected
minor component is absent); and whenever an expected token is missing or
non-numeric where a number is required, the version operation fails with a
`ParseError` carrying the offending text. -/
theorem c9_parse_version (out : String) (h : versionTokensBad out = true) :
    parse_version "gnuplot 5.2 patchlevel 5a (Gentoo revision r0)"
      = .ok ⟨5, 2, "5a"⟩
    ∧ parse_version "gnuplot 50 patchlevel 7" = .error none
    ∧ versionFromOutput out = .error (.ParseError out) := by
  refine ⟨by decide, by decide, ?_⟩
  unfold versionFromOutput
  cases hp : parse_version out with
  | ok v =>
    rw [parse_ok_tokens_good out v hp] at h
    exact Bool.noConfusion h
  | error e => rfl

/-- C9 witness: `"foobar"` has no second word — a missing-token input. -/
theorem c9_parse_version_witness :
    versionTokensBad "foobar" = true
    ∧ (parse_version "gnuplot 5.2 patchlevel 5a (Gentoo revision r0)"
        = .ok ⟨5, 2, "5a"⟩
      ∧ parse_version "gnuplot 50 patchlevel 7" = .error none
      ∧ versionFromOutput "foobar" = .error (.ParseError "foobar")) :=
  ⟨by decide, c9_parse_version "foobar" (by decide)⟩
